import Mathlib

/-!
Shallow embedding of `slackclient/server.py` (the `Server` class: connection
lifecycle, directory synchronization, frame building and the websocket read
loop).  Python mutation plus exceptions is embedded as explicit state passing:
a stateful operation returns the object state at the moment control leaves the
method together with `Option SlackError` (`some e` means the exception `e`
propagated to the caller).  External effects (the HTTP reply of the handshake,
the websocket-open outcome, the success of a wire write, the sequence of
`recv()` outcomes) are passed in as explicit environment values.
-/

set_option linter.unusedVariables false

/-- `User` entity as constructed by `User(self, name, user_id, real_name, tz)`
in `user.py` (not under src).  Modelled from the spec: a User carries
identifier, display name, real name and timezone; the back reference to the
server object is dropped. -/
structure User where
  name : String
  id : String
  real_name : String
  tz : String
deriving DecidableEq

/-- `Channel` entity as constructed by `Channel(self, name, channel_id, members)`
in `channel.py` (not under src).  Modelled from the spec: a Channel carries
name, stable identifier and an ordered member list; the back reference to the
server object is dropped. -/
structure Channel where
  name : String
  id : String
  members : List String
deriving DecidableEq

/-- A raw channel record of the login snapshot: `id` is required (the code
indexes `channel["id"]` unconditionally), `name` and `members` are optional. -/
structure ChannelRecord where
  id : String
  name : Option String
  members : Option (List String)
deriving DecidableEq

/-- A raw user record of the login snapshot: `id` and `name` are required
(the code indexes them unconditionally), `real_name` and `tz` are optional. -/
structure UserRecord where
  id : String
  name : String
  real_name : Option String
  tz : Option String
deriving DecidableEq

/-- The parsed JSON body of the handshake reply (`reply.json()`), with the
fields `rtm_connect` / `parse_slack_login_data` read.  The channel/group/im
and user lists are only accessed when `use_rtm_start` is true. -/
structure LoginData where
  ok : Bool
  url : String
  team_domain : String
  self_name : String
  channels : List ChannelRecord
  groups : List ChannelRecord
  ims : List ChannelRecord
  users : List UserRecord
deriving DecidableEq

/-- The exceptions raised by `server.py`: `SlackConnectionError` (raised bare
on a non-200 HTTP status, and wrapping the stringified cause when the
websocket open fails) and `SlackLoginError`. -/
inductive SlackError where
  | connectionError (msg : Option String)
  | loginError
deriving DecidableEq

/-- Environment of one `rtm_connect` call: the HTTP status code and parsed
body of `self.api_requester.do(...)`, and the outcome of
`wsclient.connect(ws_url, ...)` inside `_connect_slack_websocket`
(`Except.error e` is the stringified exception that makes the code raise
`SlackConnectionError(str(e))`; `Except.ok w` is the new websocket handle). -/
structure ConnectEnv where
  status_code : Nat
  login_data : LoginData
  ws_open : Except String Nat

/-- The mutable attributes `Server.__init__` sets.  `users` is the
`SearchDict` (a dict keyed by user id, modelled as an insertion-ordered
association list) and `channels` the `SearchList` (an insertion-ordered
list). -/
structure ServerState where
  token : String
  username : Option String
  domain : Option String
  login_data : Option LoginData
  websocket : Option Nat
  users : List (String × User)
  channels : List Channel
  connected : Bool
  ws_url : Option String
deriving DecidableEq

/-- The attribute values `Server.__init__(token, connect=False)` leaves behind
(the `connect=True` default additionally calls `rtm_connect`, modelled
separately). -/
def Server.initState (token : String) : ServerState :=
  { token := token
    username := none
    domain := none
    login_data := none
    websocket := none
    users := []
    channels := []
    connected := false
    ws_url := none }

/-- Modelled from the spec: `SearchList` (in `util.py`, not under src) finds a
channel by exact match on identifier first, then by name, first match wins. -/
def SearchList.find (l : List Channel) (key : String) : Option Channel :=
  match l.find? (fun c => c.id == key) with
  | some c => some c
  | none => l.find? (fun c => c.name == key)

/-- Modelled from the spec: `SearchDict` (in `util.py`, not under src) is a
mapping from user identifier to User; `update` is the dict upsert — it
replaces the binding when the key is present (keeping its position, as a
Python dict does) and appends it otherwise. -/
def SearchDict.update (m : List (String × User)) (k : String) (v : User) :
    List (String × User) :=
  if m.any (fun p => p.1 == k) then
    m.map (fun p => if p.1 == k then (k, v) else p)
  else
    m ++ [(k, v)]

/-- Modelled from the spec: lookup by user identifier in the `SearchDict`. -/
def SearchDict.lookup (m : List (String × User)) (k : String) : Option User :=
  (m.find? (fun p => p.1 == k)).map Prod.snd

/-- `Server.attach_user`: `self.users.update({user_id: User(...)})`. -/
def attach_user (s : ServerState) (name user_id real_name tz : String) :
    ServerState :=
  let u := User.mk name user_id real_name tz
  { s with users := SearchDict.update s.users user_id u }

/-- `Server.attach_channel`: default `members` to `[]` when `None`, then
append a new `Channel` only if `self.channels.find(channel_id)` is `None`. -/
def attach_channel (s : ServerState) (name channel_id : String)
    (members : Option (List String)) : ServerState :=
  let members := members.getD []
  match SearchList.find s.channels channel_id with
  | none => { s with channels := s.channels ++ [Channel.mk name channel_id members] }
  | some _ => s

/-- `Server.parse_channel_data`: for each record, fill a missing `name` with
the `id` and a missing `members` with `[]`, then `attach_channel`. -/
def parse_channel_data : ServerState → List ChannelRecord → ServerState
  | s, [] => s
  | s, channel :: rest =>
    let name := match channel.name with
      | none => channel.id
      | some n => n
    let members := match channel.members with
      | none => []
      | some ms => ms
    parse_channel_data (attach_channel s name channel.id (some members)) rest

/-- `Server.parse_user_data`: for each record, fill a missing `tz` with
`"unknown"` and a missing `real_name` with the `name`, then `attach_user`. -/
def parse_user_data : ServerState → List UserRecord → ServerState
  | s, [] => s
  | s, user :: rest =>
    let tz := match user.tz with
      | none => "unknown"
      | some t => t
    let real_name := match user.real_name with
      | none => user.name
      | some r => r
    parse_user_data (attach_user s user.name user.id real_name tz) rest

/-- `Server.parse_slack_login_data`: store the snapshot, set `domain` and
`username`, and when the connection was made via `rtm.start` parse the
channel, group, user and im lists, in that order. -/
def parse_slack_login_data (s : ServerState) (login_data : LoginData)
    (use_rtm_start : Bool) : ServerState :=
  let s := { s with
    login_data := some login_data
    domain := some login_data.team_domain
    username := some login_data.self_name }
  if use_rtm_start then
    let s := parse_channel_data s login_data.channels
    let s := parse_channel_data s login_data.groups
    let s := parse_user_data s login_data.users
    parse_channel_data s login_data.ims
  else s

/-- `Server.rtm_connect`: raise `SlackConnectionError` on a non-200 status;
otherwise, on `ok:true`, store `ws_url`, open the websocket (the open failure
raises `SlackConnectionError(str(e))` with `ws_url` already overwritten), and
parse the login data unless this is a reconnect; on `ok:false` raise
`SlackLoginError`.  Nothing in the method assigns `connected`. -/
def rtm_connect (s : ServerState) (reconnect : Bool) (use_rtm_start : Bool)
    (env : ConnectEnv) : ServerState × Option SlackError :=
  if env.status_code ≠ 200 then
    (s, some (SlackError.connectionError none))
  else
    let login_data := env.login_data
    if login_data.ok then
      let s := { s with ws_url := some login_data.url }
      match env.ws_open with
      | Except.error e => (s, some (SlackError.connectionError (some e)))
      | Except.ok w =>
        let s := { s with websocket := some w }
        if reconnect then (s, none)
        else (parse_slack_login_data s login_data use_rtm_start, none)
    else (s, some SlackError.loginError)

/-- One possible JSON value in an outbound frame. -/
inductive JVal where
  | str (s : String)
  | bool (b : Bool)
deriving DecidableEq

/-- `Server.send_to_websocket`: `try` to serialize and write the frame;
on any exception, `self.rtm_connect(reconnect=True)` (with the default
`use_rtm_start=True`).  `send_ok` is the outcome of the write attempt;
the swallowed send exception is never surfaced. -/
def send_to_websocket (s : ServerState) (data : List (String × JVal))
    (send_ok : Bool) (env : ConnectEnv) : ServerState × Option SlackError :=
  if send_ok then (s, none)
  else rtm_connect s true true env

/-- The `message_json` dict built by `Server.rtm_send_message`: base fields
`type`, `channel`, `text`; `thread_ts` added only when `thread` is not `None`,
and `reply_broadcast: true` added only when, additionally, `reply_broadcast`
is truthy. -/
def rtm_message_json (channel message : String) (thread : Option String)
    (reply_broadcast : Option Bool) : List (String × JVal) :=
  let message_json := [("type", JVal.str "message"),
                       ("channel", JVal.str channel),
                       ("text", JVal.str message)]
  match thread with
  | none => message_json
  | some t =>
    let message_json := message_json ++ [("thread_ts", JVal.str t)]
    if reply_broadcast.getD false then
      message_json ++ [("reply_broadcast", JVal.bool true)]
    else message_json

/-- `Server.rtm_send_message`: build `message_json` and pass it to
`send_to_websocket`. -/
def rtm_send_message (s : ServerState) (channel message : String)
    (thread : Option String) (reply_broadcast : Option Bool)
    (send_ok : Bool) (env : ConnectEnv) : ServerState × Option SlackError :=
  send_to_websocket s (rtm_message_json channel message thread reply_broadcast)
    send_ok env

/-- Python `str.rstrip()` on the frame buffer: drop trailing whitespace. -/
def pyRstrip (s : String) : String :=
  String.mk ((s.data.reverse.dropWhile Char.isWhitespace).reverse)

/-- One outcome of `await self.websocket.recv()`: a frame arrives, or the call
raises `SSLError` with the given errno. -/
inductive RecvEvent where
  | frame (s : String)
  | sslError (errno : Nat)
deriving DecidableEq

/-- What `Server.websocket_safe_read` does, seen from its caller: return a
string, suspend forever inside `run_until_complete` (`blocked`), or raise —
either the re-raised `SSLError` or the `InvalidStateError` of the `readop`
future (`set_result` on a completed future, or `result()` on one that was
never set). -/
inductive ReadOutcome where
  | ok (s : String)
  | blocked
  | raisedSSL (errno : Nat)
  | raisedInvalidState
deriving DecidableEq

/-- The `while True` loop of the non-blocking branch of
`Server._websocket_safe_read`.  `events` are the successive `recv()`
outcomes; running out of events means the next `await` never completes.
`readop` is the `asyncio.Future`: `set_result` on it when it is already set
raises `InvalidStateError`; on `SSLError` with errno 2 the coroutine returns
`''` (discarded) and the outer method returns `readop.result()`, which raises
`InvalidStateError` when the future was never set. -/
def safe_read_loop : List RecvEvent → String → Option String → ReadOutcome
  | [], _, _ => ReadOutcome.blocked
  | RecvEvent.frame f :: rest, data, readop =>
    let data := data ++ f ++ "\n"
    match readop with
    | some _ => ReadOutcome.raisedInvalidState
    | none => safe_read_loop rest data (some (pyRstrip data))
  | RecvEvent.sslError n :: _, _, readop =>
    if n = 2 then
      match readop with
      | some v => ReadOutcome.ok v
      | none => ReadOutcome.raisedInvalidState
    else ReadOutcome.raisedSSL n

/-- `Server.websocket_safe_read` / `_websocket_safe_read`: the blocking branch
awaits exactly one `recv()`, appends a newline, rstrips and returns; the
non-blocking branch runs the `while True` loop above. -/
def websocket_safe_read (events : List RecvEvent) (blocking : Bool) :
    ReadOutcome :=
  if blocking then
    match events with
    | [] => ReadOutcome.blocked
    | RecvEvent.frame f :: _ => ReadOutcome.ok (pyRstrip (f ++ "\n"))
    | RecvEvent.sslError n :: _ => ReadOutcome.raisedSSL n
  else safe_read_loop events "" none

/-! Helper lemmas about which attributes each operation leaves untouched. -/

theorem attach_channel_fields (s : ServerState) (name channel_id : String)
    (members : Option (List String)) :
    (attach_channel s name channel_id members).connected = s.connected ∧
    (attach_channel s name channel_id members).ws_url = s.ws_url ∧
    (attach_channel s name channel_id members).users = s.users := by
  cases h : SearchList.find s.channels channel_id <;>
    simp [attach_channel, h]

theorem attach_user_fields (s : ServerState) (name user_id real_name tz : String) :
    (attach_user s name user_id real_name tz).connected = s.connected ∧
    (attach_user s name user_id real_name tz).ws_url = s.ws_url ∧
    (attach_user s name user_id real_name tz).channels = s.channels := by
  simp [attach_user]

theorem parse_channel_data_fields (l : List ChannelRecord) :
    ∀ s : ServerState, (parse_channel_data s l).connected = s.connected ∧
      (parse_channel_data s l).ws_url = s.ws_url ∧
      (parse_channel_data s l).users = s.users := by
  induction l with
  | nil => intro s; exact ⟨rfl, rfl, rfl⟩
  | cons c rest ih =>
    intro s
    have h := ih (attach_channel s
      (match c.name with | none => c.id | some n => n) c.id
      (some (match c.members with | none => [] | some ms => ms)))
    have h2 := attach_channel_fields s
      (match c.name with | none => c.id | some n => n) c.id
      (some (match c.members with | none => [] | some ms => ms))
    exact ⟨h.1.trans h2.1, h.2.1.trans h2.2.1, h.2.2.trans h2.2.2⟩

theorem parse_user_data_fields (l : List UserRecord) :
    ∀ s : ServerState, (parse_user_data s l).connected = s.connected ∧
      (parse_user_data s l).ws_url = s.ws_url ∧
      (parse_user_data s l).channels = s.channels := by
  induction l with
  | nil => intro s; exact ⟨rfl, rfl, rfl⟩
  | cons u rest ih =>
    intro s
    have h := ih (attach_user s u.name u.id
      (match u.real_name with | none => u.name | some r => r)
      (match u.tz with | none => "unknown" | some t => t))
    have h2 := attach_user_fields s u.name u.id
      (match u.real_name with | none => u.name | some r => r)
      (match u.tz with | none => "unknown" | some t => t)
    exact ⟨h.1.trans h2.1, h.2.1.trans h2.2.1, h.2.2.trans h2.2.2⟩

theorem parse_slack_login_data_fields (s : ServerState) (ld : LoginData)
    (use_rtm_start : Bool) :
    (parse_slack_login_data s ld use_rtm_start).connected = s.connected ∧
    (parse_slack_login_data s ld use_rtm_start).ws_url = s.ws_url := by
  cases use_rtm_start with
  | false => exact ⟨rfl, rfl⟩
  | true =>
    unfold parse_slack_login_data
    simp only [if_true]
    constructor
    · rw [(parse_channel_data_fields _ _).1, (parse_user_data_fields _ _).1,
        (parse_channel_data_fields _ _).1, (parse_channel_data_fields _ _).1]
    · rw [(parse_channel_data_fields _ _).2.1, (parse_user_data_fields _ _).2.1,
        (parse_channel_data_fields _ _).2.1, (parse_channel_data_fields _ _).2.1]

theorem SearchDict.find?_map_replace (k : String) (v : User) :
    ∀ m : List (String × User), m.any (fun p => p.1 == k) = true →
      (m.map (fun p => if p.1 == k then (k, v) else p)).find?
        (fun p => p.1 == k) = some (k, v) := by
  intro m
  induction m with
  | nil => intro h; simp at h
  | cons p rest ih =>
    intro h
    by_cases hp : p.1 == k
    · simp only [List.map_cons, if_pos hp]
      exact List.find?_cons_of_pos _ (by simp)
    · simp only [List.map_cons, if_neg hp]
      rw [List.find?_cons_of_neg (p := fun q : String × User => q.1 == k) _ hp]
      apply ih
      simp only [List.any_cons, hp, Bool.false_or] at h
      exact h

theorem SearchDict.lookup_update (m : List (String × User)) (k : String)
    (v : User) :
    SearchDict.lookup (SearchDict.update m k v) k = some v := by
  unfold SearchDict.lookup SearchDict.update
  by_cases h : m.any (fun p => p.1 == k)
  · rw [if_pos h, SearchDict.find?_map_replace k v m h]
    rfl
  · rw [if_neg h]
    have hn : m.find? (fun p => p.1 == k) = none := by
      rw [List.find?_eq_none]
      intro x hx hpx
      exact h (List.any_eq_true.mpr ⟨x, hx, hpx⟩)
    rw [List.find?_append, hn]
    simp

/-! Concrete sample data used by the witness theorems. -/

def sampleLoginOk : LoginData :=
  { ok := true
    url := "wss://example"
    team_domain := "td"
    self_name := "bot"
    channels := []
    groups := []
    ims := []
    users := [] }

def sampleLoginBad : LoginData :=
  { sampleLoginOk with ok := false }

/-- Claim C1: the claim says a non-blocking `websocket_safe_read` with zero
available frames returns the empty string immediately.  Evaluating the code at
that input shows otherwise: when `recv()` never completes the call suspends
forever, and when the transport reports the SSL want-read condition (errno 2)
the coroutine returns without ever setting the `readop` future, so
`readop.result()` raises `InvalidStateError`.  In neither case is the empty
string returned. -/
theorem websocket_safe_read_nonblocking_empty_no_result :
    websocket_safe_read [] false = ReadOutcome.blocked ∧
    websocket_safe_read [RecvEvent.sslError 2] false
      = ReadOutcome.raisedInvalidState ∧
    websocket_safe_read [] false ≠ ReadOutcome.ok "" ∧
    websocket_safe_read [RecvEvent.sslError 2] false ≠ ReadOutcome.ok "" := by
  refine ⟨rfl, rfl, ?_, ?_⟩ <;> decide

/-- Claim C2: a fully successful `rtm_connect` (HTTP 200, `ok:true`, websocket
open succeeds) raises nothing and stores the handshake `url` in `ws_url` — but
the `connected` flag stays `false`: no statement in the class ever assigns
`True` to it, so the claim's "connected flag is true" part fails on the
code. -/
theorem rtm_connect_success_connected_stays_false (s : ServerState)
    (env : ConnectEnv) (w : Nat) (h1 : env.status_code = 200)
    (h2 : env.login_data.ok = true) (h3 : env.ws_open = Except.ok w)
    (h4 : s.connected = false) :
    (rtm_connect s false true env).2 = none ∧
    ((rtm_connect s false true env).1).ws_url = some env.login_data.url ∧
    ((rtm_connect s false true env).1).connected = false := by
  have hmain : rtm_connect s false true env =
      (parse_slack_login_data
        { s with ws_url := some env.login_data.url, websocket := some w }
        env.login_data true, none) := by
    simp [rtm_connect, h1, h2, h3]
  rw [hmain]
  have hp := parse_slack_login_data_fields
    { s with ws_url := some env.login_data.url, websocket := some w }
    env.login_data true
  exact ⟨rfl, hp.2, hp.1.trans h4⟩

theorem rtm_connect_success_connected_stays_false_witness :
    (rtm_connect (Server.initState "tok") false true
      (ConnectEnv.mk 200 sampleLoginOk (Except.ok 1))).2 = none ∧
    ((rtm_connect (Server.initState "tok") false true
      (ConnectEnv.mk 200 sampleLoginOk (Except.ok 1))).1).ws_url
        = some "wss://example" ∧
    ((rtm_connect (Server.initState "tok") false true
      (ConnectEnv.mk 200 sampleLoginOk (Except.ok 1))).1).connected = false :=
  rtm_connect_success_connected_stays_false (Server.initState "tok")
    (ConnectEnv.mk 200 sampleLoginOk (Except.ok 1)) 1 rfl rfl rfl rfl

/-- Claim C3: when the handshake reply has HTTP status 200 but `ok:false`,
`rtm_connect` raises `SlackLoginError` and returns with the object state
exactly as it was — in particular `connected` is still `false` and `ws_url`
still unset whenever they were so before the call. -/
theorem rtm_connect_ok_false_raises_loginError (s : ServerState)
    (r u : Bool) (env : ConnectEnv) (h1 : env.status_code = 200)
    (h2 : env.login_data.ok = false) :
    rtm_connect s r u env = (s, some SlackError.loginError) := by
  simp [rtm_connect, h1, h2]

theorem rtm_connect_ok_false_raises_loginError_witness :
    rtm_connect (Server.initState "tok") false true
      (ConnectEnv.mk 200 sampleLoginBad (Except.ok 1))
      = (Server.initState "tok", some SlackError.loginError) :=
  rtm_connect_ok_false_raises_loginError (Server.initState "tok") false true
    (ConnectEnv.mk 200 sampleLoginBad (Except.ok 1)) rfl rfl

/-- Claim C4: when the write inside `send_to_websocket` fails, the bare
`except:` swallows the send failure and the method's entire observable
behavior — resulting state and raised exception alike — is that of the single
`rtm_connect(reconnect=True)` call, so a failure of that reconnect propagates
to the caller of send while the send failure itself never does; when the write
succeeds the method returns with nothing raised and the state untouched. -/
theorem send_to_websocket_failure_single_reconnect (s : ServerState)
    (data : List (String × JVal)) (env : ConnectEnv) :
    send_to_websocket s data false env = rtm_connect s true true env ∧
    send_to_websocket s data true env = (s, none) :=
  ⟨rfl, rfl⟩

/-- Claim C5: `rtm_connect` with `reconnect=True` leaves the directory
untouched on every control path — whatever the HTTP status, `ok` field,
websocket-open outcome and handshake variant (`use_rtm_start`), the `users`
and `channels` containers of the state at return/raise time are exactly the
ones from before the call. -/
theorem rtm_connect_reconnect_preserves_directory (s : ServerState) (u : Bool)
    (env : ConnectEnv) :
    ((rtm_connect s true u env).1).users = s.users ∧
    ((rtm_connect s true u env).1).channels = s.channels := by
  unfold rtm_connect
  split
  · exact ⟨rfl, rfl⟩
  · by_cases h : env.login_data.ok
    · cases henv : env.ws_open with
      | error e => simp [h, henv]
      | ok w => simp [h, henv]
    · simp [h]

/-- Claim C6: `attach_channel` with a channel id already present in the
directory is a no-op: `self.channels.find(channel_id)` is not `None`, so the
state — including the originally stored name and member list — is returned
unchanged and no entry is appended. -/
theorem attach_channel_existing_id_noop (s : ServerState)
    (name channel_id : String) (members : Option (List String)) (c : Channel)
    (hc : c ∈ s.channels) (hid : c.id = channel_id) :
    attach_channel s name channel_id members = s := by
  have hfind : ∃ c2, SearchList.find s.channels channel_id = some c2 := by
    unfold SearchList.find
    cases hf : s.channels.find? (fun x => x.id == channel_id) with
    | some c2 => exact ⟨c2, rfl⟩
    | none =>
      rw [List.find?_eq_none] at hf
      have hx := hf c hc
      simp [hid] at hx
  obtain ⟨c2, hc2⟩ := hfind
  unfold attach_channel
  rw [hc2]

theorem attach_channel_existing_id_noop_witness :
    attach_channel
      { Server.initState "tok" with channels := [Channel.mk "general" "C1" []] }
      "renamed" "C1" none
      = { Server.initState "tok" with channels := [Channel.mk "general" "C1" []] } :=
  attach_channel_existing_id_noop
    { Server.initState "tok" with channels := [Channel.mk "general" "C1" []] }
    "renamed" "C1" none (Channel.mk "general" "C1" []) (by simp) rfl

/-- Claim C7: `attach_user` with a user id already present upserts — the dict
binding for that id is replaced by the freshly built `User`, so a lookup by
the id afterwards yields the name, real name and timezone of the latest
attach, and no entry is added (the container keeps its size). -/
theorem attach_user_existing_id_overwrites (s : ServerState)
    (name user_id real_name tz : String)
    (h : s.users.any (fun p => p.1 == user_id) = true) :
    SearchDict.lookup (attach_user s name user_id real_name tz).users user_id
      = some (User.mk name user_id real_name tz) ∧
    (attach_user s name user_id real_name tz).users.length
      = s.users.length := by
  constructor
  · exact SearchDict.lookup_update s.users user_id
      (User.mk name user_id real_name tz)
  · show (SearchDict.update s.users user_id
      (User.mk name user_id real_name tz)).length = s.users.length
    unfold SearchDict.update
    rw [if_pos h, List.length_map]

theorem attach_user_existing_id_overwrites_witness :
    SearchDict.lookup
      (attach_user
        { Server.initState "tok" with
            users := [("U1", User.mk "a" "U1" "ra" "tza")] }
        "b" "U1" "rb" "tzb").users "U1"
      = some (User.mk "b" "U1" "rb" "tzb") ∧
    (attach_user
      { Server.initState "tok" with
          users := [("U1", User.mk "a" "U1" "ra" "tza")] }
      "b" "U1" "rb" "tzb").users.length
      = [("U1", User.mk "a" "U1" "ra" "tza")].length :=
  attach_user_existing_id_overwrites
    { Server.initState "tok" with users := [("U1", User.mk "a" "U1" "ra" "tza")] }
    "b" "U1" "rb" "tzb" (by decide)

/-- Claim C8: snapshot parsing fills missing optional fields with the
documented defaults and never aborts: a channel record lacking `name` and
`members` is attached as a `Channel` with `name = id` and `members = []`, and
a user record lacking `real_name` and `tz` is attached as a `User` with
`real_name = name` and `tz = "unknown"` (both parse functions are total, so
no record aborts parsing). -/
theorem parse_data_missing_field_defaults (s : ServerState)
    (c : ChannelRecord) (u : UserRecord) (hcn : c.name = none)
    (hcm : c.members = none) (hfind : SearchList.find s.channels c.id = none)
    (hun : u.tz = none) (hur : u.real_name = none) :
    (parse_channel_data s [c]).channels
      = s.channels ++ [Channel.mk c.id c.id []] ∧
    SearchDict.lookup (parse_user_data s [u]).users u.id
      = some (User.mk u.name u.id u.name "unknown") := by
  constructor
  · have h1 : parse_channel_data s [c] =
        attach_channel s (match c.name with | none => c.id | some n => n) c.id
          (some (match c.members with | none => [] | some ms => ms)) := rfl
    rw [h1, hcn, hcm]
    simp [attach_channel, hfind]
  · have h2 : parse_user_data s [u] =
        attach_user s u.name u.id
          (match u.real_name with | none => u.name | some r => r)
          (match u.tz with | none => "unknown" | some t => t) := rfl
    rw [h2, hur, hun]
    exact SearchDict.lookup_update s.users u.id
      (User.mk u.name u.id u.name "unknown")

theorem parse_data_missing_field_defaults_witness :
    (parse_channel_data (Server.initState "tok")
      [ChannelRecord.mk "C1" none none]).channels
      = [] ++ [Channel.mk "C1" "C1" []] ∧
    SearchDict.lookup
      (parse_user_data (Server.initState "tok")
        [UserRecord.mk "U1" "alice" none none]).users "U1"
      = some (User.mk "alice" "U1" "alice" "unknown") :=
  parse_data_missing_field_defaults (Server.initState "tok")
    (ChannelRecord.mk "C1" none none) (UserRecord.mk "U1" "alice" none none)
    rfl rfl rfl rfl rfl

/-- Claim C9: the `message_json` frame of `rtm_send_message` with a thread id
and `reply_broadcast=True` carries exactly the five fields `type:"message"`,
`channel`, `text`, `thread_ts` and `reply_broadcast:true`; with `thread=None`
it carries exactly the three base fields, whatever `reply_broadcast` is. -/
theorem rtm_message_json_thread_fields (channel message t : String)
    (rb : Option Bool) :
    rtm_message_json channel message (some t) (some true) =
      [("type", JVal.str "message"), ("channel", JVal.str channel),
       ("text", JVal.str message), ("thread_ts", JVal.str t),
       ("reply_broadcast", JVal.bool true)] ∧
    rtm_message_json channel message none rb =
      [("type", JVal.str "message"), ("channel", JVal.str channel),
       ("text", JVal.str message)] :=
  ⟨rfl, rfl⟩

/-- Claim C10: when the handshake reports `ok:true` but the websocket open
fails, `rtm_connect` raises `SlackConnectionError` wrapping the cause — yet
the state it leaves behind already has `ws_url` overwritten with the new
handshake `url`, because the assignment precedes the open attempt. -/
theorem rtm_connect_ws_url_overwritten_before_failed_open (s : ServerState)
    (r u : Bool) (env : ConnectEnv) (e : String) (h1 : env.status_code = 200)
    (h2 : env.login_data.ok = true) (h3 : env.ws_open = Except.error e) :
    rtm_connect s r u env =
      ({ s with ws_url := some env.login_data.url },
        some (SlackError.connectionError (some e))) := by
  simp [rtm_connect, h1, h2, h3]

theorem rtm_connect_ws_url_overwritten_before_failed_open_witness :
    rtm_connect { Server.initState "tok" with ws_url := some "wss://old" }
      false true (ConnectEnv.mk 200 sampleLoginOk (Except.error "boom")) =
      ({ { Server.initState "tok" with ws_url := some "wss://old" } with
          ws_url := some "wss://example" },
        some (SlackError.connectionError (some "boom"))) :=
  rtm_connect_ws_url_overwritten_before_failed_open
    { Server.initState "tok" with ws_url := some "wss://old" } false true
    (ConnectEnv.mk 200 sampleLoginOk (Except.error "boom")) "boom" rfl rfl rfl
